import Mathlib

/-
Formal model of the Court of Accounts publications scraper core
(src/moroccan_parliament_scraper/core/court_accounts_scraper.py).
Each definition is a shallow embedding of the corresponding Python
function; Python strings are modelled by Lean String (a list of
characters), Python dicts of fixed shape by structures, and fallible
or stateful operations by explicit parameters and result records.
-/

namespace Scraper

/-! String helpers modelling the Python primitives used by the scraper.
Python str.lower on the characters appearing in the scraper
(ASCII letters, accented letters already lower case, Arabic letters)
agrees with ASCII lower-casing, and the regular expression classes
in play only match ASCII digits in the scraped dates. -/

/-- Python str.lower, modelled as ASCII lower-casing of each character. -/
def pyLower (s : String) : String :=
  String.mk (s.data.map Char.toLower)

/-- Whitespace characters stripped by Python str.strip (ASCII subset). -/
def isPySpace (c : Char) : Bool :=
  c.toNat == 32 || c.toNat == 9 || c.toNat == 10 || c.toNat == 13 ||
    c.toNat == 11 || c.toNat == 12

/-- Python str.strip: drop leading and trailing whitespace. -/
def pyStrip (s : String) : String :=
  String.mk (((s.data.dropWhile isPySpace).reverse.dropWhile isPySpace).reverse)

/-- Does the second list occur as a prefix of the first argument list. -/
def listPrefixOf : List Char → List Char → Bool
  | [], _ => true
  | _ :: _, [] => false
  | a :: as, b :: bs => a == b && listPrefixOf as bs

/-- Does the needle occur as a contiguous sublist of the haystack. -/
def listOccursIn (needle : List Char) : List Char → Bool
  | [] => listPrefixOf needle []
  | c :: rest => listPrefixOf needle (c :: rest) || listOccursIn needle rest

/-- Python substring containment: needle in hay. -/
def strContains (hay needle : String) : Bool :=
  listOccursIn needle.data hay.data

/-- Helper for lastSeg: accumulate the current path segment, resetting at
each slash; returns the segment after the final slash. -/
def lastSegAux (cur : List Char) : List Char → List Char
  | [] => cur.reverse
  | c :: rest => if c == '/' then lastSegAux [] rest else lastSegAux (c :: cur) rest

/-- Python url.split with a slash, last element: the final path segment. -/
def lastSeg (s : String) : String :=
  String.mk (lastSegAux [] s.data)

/-- First run of four consecutive ASCII digits in a character list, as a
number; models re.search of a four-digit group returning the leftmost
match. -/
def findFourDigit : List Char → Option Nat
  | a :: b :: c :: d :: rest =>
    if a.isDigit && b.isDigit && c.isDigit && d.isDigit then
      some ((a.toNat - 48) * 1000 + (b.toNat - 48) * 100 + (c.toNat - 48) * 10 +
        (d.toNat - 48))
    else findFourDigit (b :: c :: d :: rest)
  | _ => none

/-! PDF classification in extract_publication_details: the branch that
processes JavaScript onclick open_doc links (source lines 336 to 369). -/

/-- Keywords whose presence in the lower-cased pdf title marks Arabic. -/
def arabicKeywords : List String := ["ar", "arabe", "arabic", "عربي"]

/-- Keywords whose presence in the lower-cased pdf title marks a synthesis. -/
def synthesisTitleKeywords : List String :=
  ["synthèse", "synthese", "synthesis", "resume", "summary"]

/-- Keywords whose presence in the lower-cased pdf url marks a synthesis. -/
def synthesisUrlKeywords : List String := ["synthese", "synthèse"]

/-- is_arabic: any Arabic keyword occurs in the lower-cased title. -/
def isArabicTitle (pdf_title : String) : Bool :=
  arabicKeywords.any fun k => strContains (pyLower pdf_title) k

/-- is_synthesis: a synthesis keyword occurs in the lower-cased title, or a
synthesis keyword occurs in the lower-cased url. -/
def isSynthesisDoc (pdf_title pdf_url : String) : Bool :=
  (synthesisTitleKeywords.any fun k => strContains (pyLower pdf_title) k) ||
    (synthesisUrlKeywords.any fun k => strContains (pyLower pdf_url) k)

/-- is_french: fr or the French word for French occurs in the lower-cased
title. -/
def isFrenchTitle (pdf_title : String) : Bool :=
  strContains (pyLower pdf_title) "fr" || strContains (pyLower pdf_title) "français"

/-- The language field of a script-embedded pdf entry: arabic if is_arabic,
else french if is_french, else unknown. -/
def scriptPdfLanguage (pdf_title : String) : String :=
  if isArabicTitle pdf_title then "arabic"
  else if isFrenchTitle pdf_title then "french"
  else "unknown"

/-- The document_type field of a script-embedded pdf entry: synthesis if
is_synthesis, else main_report. -/
def scriptPdfDocumentType (pdf_title pdf_url : String) : String :=
  if isSynthesisDoc pdf_title pdf_url then "synthesis" else "main_report"

/-- Title resolution for a script-embedded pdf link: the stripped text of
the widthTitle heading of the enclosing item container when both exist
(outer option: container found; inner option: heading found), else the
last path segment of the pdf url. -/
def resolveScriptPdfTitle (container_heading : Option (Option String))
    (pdf_url : String) : String :=
  match container_heading with
  | some (some t) => t
  | some none => lastSeg pdf_url
  | none => lastSeg pdf_url

/-- One entry of the pdf_files or additional_files lists. Entries produced
from plain href links carry no language or document_type key (modelled
as none). -/
structure FileInfo where
  url : String
  filename : String
  title : String
  ftype : String
  language : Option String := none
  document_type : Option String := none
deriving DecidableEq

/-- The file_info dict built for one script-embedded pdf link. -/
def processScriptPdf (container_heading : Option (Option String))
    (pdf_url : String) : FileInfo :=
  let pdf_title := resolveScriptPdfTitle container_heading pdf_url
  { url := pdf_url
    filename := lastSeg pdf_url
    title := pdf_title
    ftype := "pdf"
    language := some (scriptPdfLanguage pdf_title)
    document_type := some (scriptPdfDocumentType pdf_title pdf_url) }

/-! The HTTP fetch layer: _make_request (source lines 109 to 137) with
_rotate_proxy (lines 84 to 90). An attempt outcome abstracts one call of
session.get together with raise_for_status; the trace records the value
returned or raised, the number of attempts performed, the sleep
durations in order, and how often the proxy cursor advanced. -/

/-- Outcome of a single request attempt: a response, or a raised
RequestException with its message. -/
inductive ReqOutcome
  | success (resp : String)
  | failure (err : String)
deriving DecidableEq

/-- The error message of a failed attempt (empty for a success). -/
def failMsg : ReqOutcome → String
  | .success _ => ""
  | .failure e => e

/-- Whether an attempt outcome is a failure. -/
def isFailure : ReqOutcome → Bool
  | .success _ => false
  | .failure _ => true

/-- Value a _make_request call ends with: a returned response, or the
raised error of the final failed attempt. -/
inductive ReqResult
  | ok (resp : String)
  | error (err : String)
deriving DecidableEq

/-- Trace of one _make_request call. -/
structure ReqTrace where
  result : ReqResult
  attempts : Nat
  sleeps : List Nat
  rotations : Nat
deriving DecidableEq

/-- How much _rotate_proxy advances the shared proxy cursor: by one only
when enable_proxies and proxy_rotation are both set (source lines 84 to
88); _make_request invokes it only when enable_proxies is set, so the
cursor moves exactly when both flags hold. -/
def rotationStep (enable_proxies proxy_rotation : Bool) : Nat :=
  if enable_proxies && proxy_rotation then 1 else 0

/-- The retry loop of _make_request, starting at a given attempt index
with the given number of attempts remaining. On failure of a non-final
attempt the proxy is rotated (when enabled) and the loop sleeps
delay * (attempt + 1) before retrying; the final failure is raised. -/
def attemptLoop (outcome : Nat → ReqOutcome) (delay : Nat) (ep pr : Bool) :
    Nat → Nat → ReqTrace
  | _, 0 => { result := ReqResult.error "", attempts := 0, sleeps := [], rotations := 0 }
  | attempt, fuel + 1 =>
    match outcome attempt with
    | .success resp =>
      { result := ReqResult.ok resp, attempts := 1, sleeps := [], rotations := 0 }
    | .failure err =>
      if fuel = 0 then
        { result := ReqResult.error err, attempts := 1, sleeps := [], rotations := 0 }
      else
        let sub := attemptLoop outcome delay ep pr (attempt + 1) fuel
        { result := sub.result
          attempts := sub.attempts + 1
          sleeps := delay * (attempt + 1) :: sub.sleeps
          rotations := rotationStep ep pr + sub.rotations }

/-- _make_request with retry count retries: at most retries + 1 attempts. -/
def make_request (outcome : Nat → ReqOutcome) (retries delay : Nat)
    (ep pr : Bool) : ReqTrace :=
  attemptLoop outcome delay ep pr 0 (retries + 1)

/-- The sleep durations produced from a given attempt index on: delay
times the one-based attempt number of each failed non-final attempt. -/
def sleepsFrom (delay a : Nat) : Nat → List Nat
  | 0 => []
  | n + 1 => delay * (a + 1) :: sleepsFrom delay (a + 1) n

/-! Listing extraction: extract_publications_from_page (source lines 139
to 168) and _extract_publication_from_item (lines 170 to 234). A listing
node (a div of class item) is modelled by its attributes and the
relevant child elements, each text already stripped as by
get_text(strip=True). -/

/-- One div of class item on the listing page. time_text, href and
h2_text are none when the corresponding child element is absent;
time_text and h2_text carry the stripped element text, href the href
attribute of the first anchor (empty when the attribute is missing). -/
structure Item where
  data_time : String
  data_title : String
  data_cat : String
  time_text : Option String
  href : Option String
  h2_text : Option String
deriving DecidableEq

/-- The category slug to display name mapping table. -/
def category_map : List (String × String) :=
  [("rapport-annuel", "Rapport annuel"),
   ("rapport-thematique", "Rapport thématique"),
   ("rapport-particulier", "Rapport particulier"),
   ("rapport-partis-politiques", "Rapport partis politiques"),
   ("syntheses-des-missions-crc", "Synthèses des missions CRC"),
   ("arret", "Arrêt"),
   ("refere", "Référé"),
   ("formulaire", "Formulaire")]

/-- A publication record. The first ten fields are written by the listing
extractor; the remaining fields exist only after a detail merge (none
models an absent dict key). -/
structure Pub where
  title : String
  date : String
  year : Option Nat
  category : String
  description : String
  pdf_url : String
  pdf_filename : String
  url : String
  scraped_at : String
  source_url : String
  author : Option String := none
  pdf_files : Option (List FileInfo) := none
  additional_files : Option (List FileInfo) := none
  full_content : Option String := none
  arabic_version_url : Option String := none
  language_versions : Option (List (String × String)) := none
  publication_details : Option (List (String × String)) := none
deriving DecidableEq

/-- Title of a listing item: the stripped data-title attribute when
non-empty, else the stripped text of the h2 element, else empty. -/
def itemTitle (item : Item) : String :=
  if pyStrip item.data_title ≠ "" then pyStrip item.data_title
  else
    match item.h2_text with
    | none => ""
    | some h => h

/-- Category of a listing item: the stripped data-cat attribute mapped
through category_map when non-empty (unmapped slugs pass through raw),
else empty. -/
def itemCategory (item : Item) : String :=
  let category_attr := pyStrip item.data_cat
  if category_attr ≠ "" then (category_map.lookup category_attr).getD category_attr
  else ""

/-- Date of a listing item: the stripped text of the time element, else
empty. -/
def itemDate (item : Item) : String :=
  match item.time_text with
  | none => ""
  | some dt => dt

/-- Year of a listing item: set only when a time element exists; then the
first four-digit run of its text, with the current year as fallback. -/
def itemYear (current_year : Nat) (item : Item) : Option Nat :=
  match item.time_text with
  | none => none
  | some dt =>
    match findFourDigit dt.data with
    | some y => some y
    | none => some current_year

/-- Detail url of a listing item: the href of the first anchor, else
empty. -/
def itemUrl (item : Item) : String :=
  match item.href with
  | none => ""
  | some h => h

/-- _extract_publication_from_item: build the record; return it only when
the title is non-empty, else no record. -/
def extract_publication_from_item (current_year : Nat) (now base_url : String)
    (item : Item) : Option Pub :=
  if itemTitle item ≠ "" then
    some { title := itemTitle item
           date := itemDate item
           year := itemYear current_year item
           category := itemCategory item
           description := ""
           pdf_url := ""
           pdf_filename := ""
           url := itemUrl item
           scraped_at := now
           source_url := base_url }
  else none

/-- The dict returned by extract_publication_details. Its keys are
description, author, pdf_files, additional_files, full_content,
arabic_version_url, language_versions, publication_details, and
pdf_url with pdf_filename exactly when pdf_files is non-empty (none
models the key being absent). The dict never contains title, date,
year, category, url, scraped_at or source_url. -/
structure Details where
  description : String
  author : String
  pdf_files : List FileInfo
  additional_files : List FileInfo
  full_content : String
  arabic_version_url : String
  language_versions : List (String × String)
  publication_details : List (String × String)
  pdf_url : Option String
  pdf_filename : Option String
deriving DecidableEq

/-- publication_data.update(detailed_data): every key of the detail dict
replaces or adds the field of the same name; keys absent from the
detail dict leave the record field unchanged. -/
def mergeDetails (p : Pub) (d : Details) : Pub :=
  { p with
    description := d.description
    author := some d.author
    pdf_files := some d.pdf_files
    additional_files := some d.additional_files
    full_content := some d.full_content
    arabic_version_url := some d.arabic_version_url
    language_versions := some d.language_versions
    publication_details := some d.publication_details
    pdf_url := d.pdf_url.getD p.pdf_url
    pdf_filename := d.pdf_filename.getD p.pdf_filename }

/-- The per-record detail step of extract_publications_from_page: when
the record has a non-empty url, fetch and extract the detail page
(the details function returns none on failure) and merge the result;
otherwise keep the listing record. -/
def enrichWithDetails (details : String → Option Details) (p : Pub) : Pub :=
  if p.url ≠ "" then
    match details p.url with
    | some d => mergeDetails p d
    | none => p
  else p

/-- extract_publications_from_page: select the items whose data-time
attribute is the current year, extract a record from each, enrich it
from its detail page, and drop items that produced no record. -/
def extract_publications_from_page (current_year : Nat) (now base_url : String)
    (details : String → Option Details) (items : List Item) : List Pub :=
  (items.filter fun it => it.data_time == toString current_year).filterMap fun it =>
    (extract_publication_from_item current_year now base_url it).map
      (enrichWithDetails details)

/-! Deduplication inside scrape_publications (source lines 503 to 513). -/

/-- The deduplication key: the exact pair of title and date text. -/
def pubKey (p : Pub) : String × String := (p.title, p.date)

/-- The dedup loop: seen_publications is the set of keys already kept. -/
def dedupAux (seen : List (String × String)) : List Pub → List Pub
  | [] => []
  | p :: rest =>
    if pubKey p ∈ seen then dedupAux seen rest
    else p :: dedupAux (pubKey p :: seen) rest

/-- Deduplicate a record list, keeping the first occurrence of each key. -/
def dedup (pubs : List Pub) : List Pub := dedupAux [] pubs

/-- First-occurrence characterisation of deduplication, written from the
claim: keep the head and drop every later record carrying the same
title and date, recursively. -/
def dedupSpec : List Pub → List Pub
  | [] => []
  | p :: rest => p :: dedupSpec (rest.filter fun q => decide (pubKey q ≠ pubKey p))
termination_by l => l.length
decreasing_by
  simp only [List.length_cons]
  exact Nat.lt_succ_of_le (List.length_filter_le _ _)

/-! Snapshot persistence and orchestration: save_results (source lines
523 to 559), _check_existing_data (lines 620 to 636), run (lines 561
to 618) and scrape_publications (lines 467 to 521). -/

/-- The fixed list of publication categories. -/
def publication_categories : List String :=
  ["Rapport thématique", "Rapport particulier", "Rapport annuel",
   "Rapport partis politiques", "Synthèses des missions CRC", "Arrêt",
   "Référé", "Formulaire"]

/-- The persisted snapshot document. -/
structure Snapshot where
  scraped_at : String
  total_items : Nat
  source_website : String
  data_extraction_level : String
  categories : List String
  duplicate_checking : String
  data : List Pub
deriving DecidableEq

/-- State of the year-named snapshot file on disk: absent, unreadable
(including a document without a total_items key, which reads as 0), or
a snapshot with the given total_items value. -/
inductive ExistingData
  | absent
  | corrupt
  | snapshot (total_items : Nat)
deriving DecidableEq

/-- _check_existing_data: 0 when the file is absent or unreadable, else
the total_items value of the stored document. -/
def check_existing_data : ExistingData → Nat
  | .absent => 0
  | .corrupt => 0
  | .snapshot n => n

/-- The output_data document built by save_results: total_items is the
length of the in-memory result list, data the list itself. -/
def mkOutputData (now : String) (force_rescrape : Bool) (results : List Pub) : Snapshot :=
  { scraped_at := now
    total_items := results.length
    source_website := "https://www.courdescomptes.ma/publications/"
    data_extraction_level := "Enhanced with publication details and PDF links"
    categories := publication_categories
    duplicate_checking := if !force_rescrape then "Enabled" else "Disabled"
    data := results }

/-- save_results: with an empty result list, write nothing and return
false; otherwise build the output document and write it, returning
true, or return false when the write raises (io_ok models the write
succeeding); nothing is written on a failed write in this model of the
all-or-nothing contract. -/
def save_results (now : String) (force_rescrape : Bool) (results : List Pub)
    (io_ok : Bool) : Bool × Option Snapshot :=
  if results.isEmpty then (false, none)
  else if io_ok then (true, some (mkOutputData now force_rescrape results))
  else (false, none)

/-- scrape_publications: one listing-page fetch (listing is none when the
fetch fails after all retries, yielding an empty result), extraction of
the page, empty-guard, then deduplication. -/
def scrape_publications (current_year : Nat) (now base_url : String)
    (details : String → Option Details) (listing : Option (List Item)) : List Pub :=
  match listing with
  | none => []
  | some items =>
    let publications := extract_publications_from_page current_year now base_url details items
    if publications.isEmpty then [] else dedup publications

/-- Result of one run: the returned success flag, how many network
requests were performed, and the snapshot written (none when the file
was not touched). -/
structure RunOutcome where
  success : Bool
  network_requests : Nat
  written : Option Snapshot
deriving DecidableEq

/-- Network requests performed by the scraping phase: one listing-page
request plus one detail-page request per extracted record with a
non-empty url. -/
def scrape_request_count (current_year : Nat) (now base_url : String)
    (listing : Option (List Item)) : Nat :=
  match listing with
  | none => 1
  | some items =>
    1 + ((items.filter fun it => it.data_time == toString current_year).filterMap
      (extract_publication_from_item current_year now base_url)).countP
        fun p => p.url != ""

/-- run: skip with success when force_rescrape is off and the existing
snapshot reports a positive total_items, performing no request and
writing nothing; otherwise scrape, fail on an empty result, and
otherwise persist, returning the save outcome. -/
def run (force_rescrape : Bool) (existing : ExistingData) (current_year : Nat)
    (now base_url : String) (details : String → Option Details)
    (listing : Option (List Item)) (io_ok : Bool) : RunOutcome :=
  if !force_rescrape && decide (0 < check_existing_data existing) then
    { success := true, network_requests := 0, written := none }
  else
    let publications := scrape_publications current_year now base_url details listing
    let requests := scrape_request_count current_year now base_url listing
    if publications.isEmpty then
      { success := false, network_requests := requests, written := none }
    else
      match save_results now force_rescrape publications io_ok with
      | (true, snap) => { success := true, network_requests := requests, written := snap }
      | (false, _) => { success := false, network_requests := requests, written := none }

/-! Concrete fixtures used in the theorems below. -/

/-- A record carrying only a title, a date and a marker description. -/
def mkPub (t d desc : String) : Pub :=
  { title := t, date := d, year := none, category := "", description := desc,
    pdf_url := "", pdf_filename := "", url := "", scraped_at := "", source_url := "" }

/-- Record A of the dedup example: title t1, date d1. -/
def pubA : Pub := mkPub "t1" "d1" "A"

/-- Record B of the dedup example: same title and date as A. -/
def pubB : Pub := mkPub "t1" "d1" "B"

/-- Record C of the dedup example: title t2, date d2. -/
def pubC : Pub := mkPub "t2" "d2" "C"

/-- A record sharing the title of A but with a different date. -/
def pubD : Pub := mkPub "t1" "d2" "D"

/-- A detail extractor that always fails (returns none). -/
def noDetails : String → Option Details := fun _ => none

/-- A listing item carrying only a data-title attribute. -/
def itemX : Item :=
  { data_time := "2025", data_title := "Rapport X", data_cat := "",
    time_text := none, href := none, h2_text := none }

/-- The record the listing extractor produces from itemX. -/
def pubX : Pub :=
  { title := "Rapport X", date := "", year := none, category := "",
    description := "", pdf_url := "", pdf_filename := "", url := "",
    scraped_at := "now", source_url := "base" }

/-- A listing item with an empty data-title and no heading. -/
def itemEmptyTitle : Item :=
  { data_time := "2025", data_title := "", data_cat := "",
    time_text := none, href := none, h2_text := none }

/-- A listing item whose time element reads 15 janvier 2025. -/
def itemJanvier : Item :=
  { data_time := "2025", data_title := "Rapport J", data_cat := "",
    time_text := some "15 janvier 2025", href := none, h2_text := none }

/-- The record the listing extractor produces from itemJanvier at current
year 2024: the year comes from the date text, not the current year. -/
def pubJanvier : Pub :=
  { title := "Rapport J", date := "15 janvier 2025", year := some 2025,
    category := "", description := "", pdf_url := "", pdf_filename := "",
    url := "", scraped_at := "now", source_url := "base" }

/-- A listing item matched by the current-year listing but carrying no
time element at all. -/
def itemNoTime : Item :=
  { data_time := "2025", data_title := "Rapport sans date", data_cat := "",
    time_text := none, href := none, h2_text := none }

/-- The record the listing extractor produces from itemNoTime: its year
is null, not the current year. -/
def pubNoTime : Pub :=
  { title := "Rapport sans date", date := "", year := none, category := "",
    description := "", pdf_url := "", pdf_filename := "", url := "",
    scraped_at := "now", source_url := "base" }

/-- A listing item whose time element text contains no four-digit run. -/
def itemNoYearText : Item :=
  { data_time := "2025", data_title := "Rapport H", data_cat := "",
    time_text := some "hier", href := none, h2_text := none }

/-- A detail result with an empty description and no pdf files. -/
def dX : Details :=
  { description := "", author := "Cour des comptes", pdf_files := [],
    additional_files := [], full_content := "", arabic_version_url := "",
    language_versions := [], publication_details := [],
    pdf_url := none, pdf_filename := none }

/-- The snapshot written for the one-record list holding pubA. -/
def snapA : Snapshot := mkOutputData "t" false [pubA]

/-- Attempt outcomes where every attempt fails with the same error. -/
def allFailOutcome : Nat → ReqOutcome := fun _ => ReqOutcome.failure "down"

/-- Attempt outcomes failing once, then succeeding. -/
def secondTryOutcome : Nat → ReqOutcome :=
  fun i => if i = 0 then ReqOutcome.failure "boom" else ReqOutcome.success "ok"

/-- Attempt outcomes failing twice, then succeeding on the third attempt. -/
def thirdTryOutcome : Nat → ReqOutcome :=
  fun i =>
    if i = 0 then ReqOutcome.failure "timeout0"
    else if i = 1 then ReqOutcome.failure "timeout1"
    else ReqOutcome.success "ok"

/-! Theorems about the embedded scraper. -/

/-- Claim C1, counterexample: the script-embedded link opening
rapport_ar_synthese.pdf with enclosing item heading Rapport annuel is
classified with language unknown, not arabic: the language keywords are
matched against the resolved title only, and Rapport annuel contains
no Arabic keyword, while the url is consulted only for the synthesis
check. -/
theorem script_pdf_language_counterexample :
    (processScriptPdf (some (some "Rapport annuel")) "rapport_ar_synthese.pdf").language
        ≠ some "arabic" ∧
    (processScriptPdf (some (some "Rapport annuel")) "rapport_ar_synthese.pdf").language
        = some "unknown" := by
  exact ⟨by decide, by decide⟩

/-- Claim C1 as amended: the entry built for the script-embedded link to
rapport_ar_synthese.pdf with enclosing heading Rapport annuel has
language unknown (keywords are checked against the title only, which
contains none) and document_type synthesis (the url contains
synthese); the entry for rapport_fr.pdf resolved to its filename with
no synthesis keyword in title or url has language french and
document_type main_report. -/
theorem script_pdf_classification :
    (processScriptPdf (some (some "Rapport annuel")) "rapport_ar_synthese.pdf").language
        = some "unknown" ∧
    (processScriptPdf (some (some "Rapport annuel")) "rapport_ar_synthese.pdf").document_type
        = some "synthesis" ∧
    (processScriptPdf none "rapport_fr.pdf").language = some "french" ∧
    (processScriptPdf none "rapport_fr.pdf").document_type = some "main_report" := by
  exact ⟨by decide, by decide, by decide, by decide⟩

/-- One-attempt unfolding of the retry loop. -/
theorem attemptLoop_one (outcome : Nat → ReqOutcome) (delay : Nat) (ep pr : Bool)
    (attempt : Nat) :
    attemptLoop outcome delay ep pr attempt 1 =
      match outcome attempt with
      | .success resp =>
        { result := ReqResult.ok resp, attempts := 1, sleeps := [], rotations := 0 }
      | .failure err =>
        { result := ReqResult.error err, attempts := 1, sleeps := [], rotations := 0 } := by
  cases h : outcome attempt <;> simp [attemptLoop, h]

/-- Step unfolding of the retry loop with at least one retry remaining. -/
theorem attemptLoop_step (outcome : Nat → ReqOutcome) (delay : Nat) (ep pr : Bool)
    (attempt f : Nat) :
    attemptLoop outcome delay ep pr attempt (f + 1 + 1) =
      match outcome attempt with
      | .success resp =>
        { result := ReqResult.ok resp, attempts := 1, sleeps := [], rotations := 0 }
      | .failure _ =>
        { result := (attemptLoop outcome delay ep pr (attempt + 1) (f + 1)).result
          attempts := (attemptLoop outcome delay ep pr (attempt + 1) (f + 1)).attempts + 1
          sleeps := delay * (attempt + 1) ::
            (attemptLoop outcome delay ep pr (attempt + 1) (f + 1)).sleeps
          rotations := rotationStep ep pr +
            (attemptLoop outcome delay ep pr (attempt + 1) (f + 1)).rotations } := by
  cases h : outcome attempt <;> simp [attemptLoop, h]

/-- The retry loop performs between one and fuel attempts. -/
theorem attemptLoop_attempts (outcome : Nat → ReqOutcome) (delay : Nat) (ep pr : Bool) :
    ∀ (fuel attempt : Nat),
      1 ≤ (attemptLoop outcome delay ep pr attempt (fuel + 1)).attempts ∧
      (attemptLoop outcome delay ep pr attempt (fuel + 1)).attempts ≤ fuel + 1 := by
  intro fuel
  induction fuel with
  | zero =>
    intro attempt
    rw [attemptLoop_one]
    cases outcome attempt <;> simp
  | succ f ih =>
    intro attempt
    rw [attemptLoop_step]
    cases outcome attempt with
    | success resp => simp
    | failure err =>
      have hsub := ih (attempt + 1)
      dsimp only
      omega

/-- The sleep list of the retry loop: one sleep per failed non-final
attempt, linearly growing from the starting attempt index. -/
theorem attemptLoop_sleeps (outcome : Nat → ReqOutcome) (delay : Nat) (ep pr : Bool) :
    ∀ (fuel attempt : Nat),
      (attemptLoop outcome delay ep pr attempt (fuel + 1)).sleeps =
        sleepsFrom delay attempt
          ((attemptLoop outcome delay ep pr attempt (fuel + 1)).attempts - 1) := by
  intro fuel
  induction fuel with
  | zero =>
    intro attempt
    rw [attemptLoop_one]
    cases outcome attempt <;> rfl
  | succ f ih =>
    intro attempt
    rw [attemptLoop_step]
    cases outcome attempt with
    | success resp => rfl
    | failure err =>
      dsimp only
      obtain ⟨m, hm⟩ : ∃ m,
          (attemptLoop outcome delay ep pr (attempt + 1) (f + 1)).attempts = m + 1 :=
        ⟨(attemptLoop outcome delay ep pr (attempt + 1) (f + 1)).attempts - 1,
         by have := (attemptLoop_attempts outcome delay ep pr f (attempt + 1)).1; omega⟩
      rw [ih (attempt + 1), hm]
      simp only [Nat.add_sub_cancel]
      rfl

/-- The rotation count of the retry loop: the per-failure cursor step
times the number of failed non-final attempts. -/
theorem attemptLoop_rotations (outcome : Nat → ReqOutcome) (delay : Nat) (ep pr : Bool) :
    ∀ (fuel attempt : Nat),
      (attemptLoop outcome delay ep pr attempt (fuel + 1)).rotations =
        rotationStep ep pr *
          ((attemptLoop outcome delay ep pr attempt (fuel + 1)).attempts - 1) := by
  intro fuel
  induction fuel with
  | zero =>
    intro attempt
    rw [attemptLoop_one]
    cases outcome attempt <;> rfl
  | succ f ih =>
    intro attempt
    rw [attemptLoop_step]
    cases outcome attempt with
    | success resp => rfl
    | failure err =>
      dsimp only
      obtain ⟨m, hm⟩ : ∃ m,
          (attemptLoop outcome delay ep pr (attempt + 1) (f + 1)).attempts = m + 1 :=
        ⟨(attemptLoop outcome delay ep pr (attempt + 1) (f + 1)).attempts - 1,
         by have := (attemptLoop_attempts outcome delay ep pr f (attempt + 1)).1; omega⟩
      rw [ih (attempt + 1), hm]
      simp only [Nat.add_sub_cancel]
      rw [Nat.mul_succ]
      exact Nat.add_comm _ _

/-- When every attempt fails, the loop runs out of fuel and raises the
error of the final attempt. -/
theorem attemptLoop_all_fail (outcome : Nat → ReqOutcome) (delay : Nat) (ep pr : Bool) :
    ∀ (fuel attempt : Nat),
      (∀ i, i < fuel + 1 → isFailure (outcome (attempt + i)) = true) →
      (attemptLoop outcome delay ep pr attempt (fuel + 1)).result =
        ReqResult.error (failMsg (outcome (attempt + fuel))) ∧
      (attemptLoop outcome delay ep pr attempt (fuel + 1)).attempts = fuel + 1 := by
  intro fuel
  induction fuel with
  | zero =>
    intro attempt hall
    have h0 := hall 0 (by omega)
    rw [Nat.add_zero] at h0
    rw [attemptLoop_one]
    cases h : outcome attempt with
    | success resp => rw [h] at h0; simp [isFailure] at h0
    | failure err => exact ⟨by simp [h, failMsg], rfl⟩
  | succ f ih =>
    intro attempt hall
    have h0 := hall 0 (by omega)
    rw [Nat.add_zero] at h0
    rw [attemptLoop_step]
    cases h : outcome attempt with
    | success resp => rw [h] at h0; simp [isFailure] at h0
    | failure err =>
      have hsub := ih (attempt + 1) (fun i hi => by
        have hx := hall (i + 1) (by omega)
        rw [show attempt + (i + 1) = attempt + 1 + i by omega] at hx
        exact hx)
      dsimp only
      constructor
      · rw [hsub.1, show attempt + (f + 1) = attempt + 1 + f by omega]
      · rw [hsub.2]

/-- Closed form of the sleep schedule: from attempt index a, the k-th
sleep (zero-based) lasts delay * (a + k + 1). -/
theorem sleepsFrom_eq (delay : Nat) :
    ∀ (n a : Nat), sleepsFrom delay a n =
      (List.range n).map fun k => delay * (a + k + 1) := by
  intro n
  induction n with
  | zero => intro a; rfl
  | succ m ih =>
    intro a
    rw [sleepsFrom, ih (a + 1), List.range_succ_eq_map, List.map_cons, List.map_map]
    have hfun : ((fun k => delay * (a + k + 1)) ∘ Nat.succ) =
        fun k : Nat => delay * (a + 1 + k + 1) := by
      funext k
      show delay * (a + (k + 1) + 1) = delay * (a + 1 + k + 1)
      have h : a + (k + 1) + 1 = a + 1 + k + 1 := by omega
      rw [h]
    rw [hfun]

/-- Claim C2, counterexample: with proxies enabled but proxy rotation
disabled, a request that fails on its first attempt and succeeds on the
second performs one failed non-final attempt yet advances the proxy
cursor zero times, not once. -/
theorem make_request_rotation_counterexample :
    (make_request secondTryOutcome 1 2 true false).attempts = 2 ∧
    (make_request secondTryOutcome 1 2 true false).sleeps = [2] ∧
    (make_request secondTryOutcome 1 2 true false).rotations ≠ 1 := by
  exact ⟨rfl, rfl, by decide⟩

/-- Claim C2 as amended: _make_request performs at most retries + 1
attempts; after the k-th failed non-final attempt (one-based) it sleeps
exactly delay * k, a linearly growing schedule; the proxy cursor
advances by one per failed non-final attempt exactly when proxies and
proxy rotation are both enabled (and not at all otherwise); when every
attempt fails, the error of the final attempt is raised; and a fetch
failing twice then succeeding returns the response after exactly two
rotations (both flags enabled) and two sleeps of increasing duration. -/
theorem make_request_retry_spec (outcome : Nat → ReqOutcome) (retries delay : Nat)
    (ep pr : Bool) :
    1 ≤ (make_request outcome retries delay ep pr).attempts ∧
    (make_request outcome retries delay ep pr).attempts ≤ retries + 1 ∧
    (make_request outcome retries delay ep pr).sleeps =
      (List.range ((make_request outcome retries delay ep pr).attempts - 1)).map
        (fun k => delay * (k + 1)) ∧
    (make_request outcome retries delay ep pr).rotations =
      (if ep && pr then (make_request outcome retries delay ep pr).attempts - 1 else 0) ∧
    ((∀ i, i ≤ retries → isFailure (outcome i) = true) →
      (make_request outcome retries delay ep pr).result =
        ReqResult.error (failMsg (outcome retries))) ∧
    make_request thirdTryOutcome 3 delay true true =
      { result := ReqResult.ok "ok", attempts := 3,
        sleeps := [delay * 1, delay * 2], rotations := 2 } := by
  unfold make_request
  have hA := attemptLoop_attempts outcome delay ep pr retries 0
  refine ⟨hA.1, hA.2, ?_, ?_, ?_, rfl⟩
  · rw [attemptLoop_sleeps outcome delay ep pr retries 0, sleepsFrom_eq]
    have hfun : (fun k => delay * (0 + k + 1)) = fun k : Nat => delay * (k + 1) := by
      funext k
      rw [Nat.zero_add]
    rw [hfun]
  · rw [attemptLoop_rotations outcome delay ep pr retries 0]
    cases hb : ep && pr <;> simp [rotationStep, hb]
  · intro hall
    have hres := attemptLoop_all_fail outcome delay ep pr retries 0 (fun i hi => by
      rw [Nat.zero_add]
      exact hall i (by omega))
    rw [hres.1, Nat.zero_add]

/-- Witness for make_request_retry_spec: three attempts all failing with
the message down raise exactly that error. -/
theorem make_request_retry_spec_witness :
    (make_request allFailOutcome 2 5 true true).result = ReqResult.error "down" :=
  (make_request_retry_spec allFailOutcome 2 5 true true).2.2.2.2.1 (fun _ _ => rfl)

/-- Two successive filters compose into one conjunctive filter. -/
theorem filter_filter_and (f g : Pub → Bool) (l : List Pub) :
    (l.filter f).filter g = l.filter fun a => f a && g a := by
  induction l with
  | nil => rfl
  | cons a t ih =>
    by_cases hf : f a <;> by_cases hg : g a <;>
      simp [List.filter_cons, hf, hg, ih]

/-- The dedup loop equals the first-occurrence characterisation applied
to the records whose key is not already seen. -/
theorem dedupAux_eq_spec (ps : List Pub) : ∀ seen,
    dedupAux seen ps = dedupSpec (ps.filter fun q => decide (pubKey q ∉ seen)) := by
  induction ps with
  | nil => intro seen; simp [dedupAux, dedupSpec]
  | cons p rest ih =>
    intro seen
    by_cases hp : pubKey p ∈ seen
    · rw [show dedupAux seen (p :: rest) = dedupAux seen rest from by
        simp [dedupAux, hp]]
      rw [ih seen]
      congr 1
      simp [List.filter_cons, hp]
    · rw [show dedupAux seen (p :: rest) = p :: dedupAux (pubKey p :: seen) rest from by
        simp [dedupAux, hp]]
      rw [ih (pubKey p :: seen)]
      rw [show (p :: rest).filter (fun q => decide (pubKey q ∉ seen)) =
          p :: rest.filter (fun q => decide (pubKey q ∉ seen)) from by
        simp [List.filter_cons, hp]]
      rw [dedupSpec]
      have hfil : rest.filter (fun q => decide (pubKey q ∉ (pubKey p :: seen))) =
          (rest.filter fun q => decide (pubKey q ∉ seen)).filter
            (fun q => decide (pubKey q ≠ pubKey p)) := by
        rw [filter_filter_and]
        apply List.filter_congr
        intro a _
        by_cases h1 : pubKey a = pubKey p <;> by_cases h2 : pubKey a ∈ seen <;>
          simp [List.mem_cons, h1, h2]
      rw [hfil]

/-- Claim C4: deduplication keeps exactly the first occurrence of each
exact (title, date) pair and preserves input order: on every input it
equals the first-occurrence characterisation dedupSpec; on the
three-record example the later record with a duplicated key is
dropped; and two records sharing a title but differing in date text
are both kept. -/
theorem dedup_first_occurrence :
    (∀ ps : List Pub, dedup ps = dedupSpec ps) ∧
    dedup [pubA, pubB, pubC] = [pubA, pubC] ∧
    (∀ a b : Pub, a.title = b.title → a.date ≠ b.date → dedup [a, b] = [a, b]) := by
  refine ⟨?_, by decide, ?_⟩
  · intro ps
    rw [dedup, dedupAux_eq_spec]
    congr 1
    simp
  · intro a b ht hd
    have hk : pubKey b ≠ pubKey a := by
      intro hbk
      have hdate : b.date = a.date := congrArg Prod.snd hbk
      exact hd hdate.symm
    have ha : pubKey a ∉ ([] : List (String × String)) := List.not_mem_nil _
    simp [dedup, dedupAux, ha, hk]

/-- Witness for dedup_first_occurrence: the records pubA and pubD share
the title t1 but have different dates, and both are kept. -/
theorem dedup_first_occurrence_witness : dedup [pubA, pubD] = [pubA, pubD] :=
  dedup_first_occurrence.2.2 pubA pubD rfl (by decide)

/-- Every record kept by the dedup loop has a key outside seen. -/
theorem dedupAux_key_not_seen : ∀ (ps : List Pub) (seen) (p : Pub),
    p ∈ dedupAux seen ps → pubKey p ∉ seen := by
  intro ps
  induction ps with
  | nil => intro seen p hp; simp [dedupAux] at hp
  | cons a rest ih =>
    intro seen p hp
    by_cases ha : pubKey a ∈ seen
    · rw [show dedupAux seen (a :: rest) = dedupAux seen rest from by
        simp [dedupAux, ha]] at hp
      exact ih seen p hp
    · rw [show dedupAux seen (a :: rest) = a :: dedupAux (pubKey a :: seen) rest from by
        simp [dedupAux, ha]] at hp
      rcases List.mem_cons.mp hp with rfl | hmem
      · exact ha
      · have hq := ih (pubKey a :: seen) p hmem
        intro hcon
        exact hq (List.mem_cons_of_mem _ hcon)

/-- The keys of the dedup output are pairwise distinct. -/
theorem dedupAux_keys_nodup : ∀ (ps : List Pub) (seen),
    ((dedupAux seen ps).map pubKey).Nodup := by
  intro ps
  induction ps with
  | nil => intro seen; simp [dedupAux]
  | cons a rest ih =>
    intro seen
    by_cases ha : pubKey a ∈ seen
    · rw [show dedupAux seen (a :: rest) = dedupAux seen rest from by
        simp [dedupAux, ha]]
      exact ih seen
    · rw [show dedupAux seen (a :: rest) = a :: dedupAux (pubKey a :: seen) rest from by
        simp [dedupAux, ha]]
      rw [List.map_cons]
      refine List.nodup_cons.mpr ⟨?_, ih (pubKey a :: seen)⟩
      intro hmem
      obtain ⟨q, hq, hkey⟩ := List.mem_map.mp hmem
      have hns := dedupAux_key_not_seen rest (pubKey a :: seen) q hq
      exact hns (by rw [hkey]; exact List.mem_cons_self _ _)

/-- A list whose keys avoid seen and are pairwise distinct passes the
dedup loop unchanged. -/
theorem dedupAux_of_nodup : ∀ (ps : List Pub) (seen),
    (∀ p ∈ ps, pubKey p ∉ seen) → ((ps.map pubKey).Nodup) → dedupAux seen ps = ps := by
  intro ps
  induction ps with
  | nil => intro seen _ _; rfl
  | cons a rest ih =>
    intro seen hseen hnd
    rw [List.map_cons] at hnd
    have ha : pubKey a ∉ seen := hseen a (List.mem_cons_self _ _)
    rw [show dedupAux seen (a :: rest) = a :: dedupAux (pubKey a :: seen) rest from by
      simp [dedupAux, ha]]
    congr 1
    apply ih
    · intro p hp hc
      rcases List.mem_cons.mp hc with heq | hmem
      · exact (List.nodup_cons.mp hnd).1 (heq ▸ List.mem_map_of_mem pubKey hp)
      · exact hseen p (List.mem_cons_of_mem _ hp) hmem
    · exact (List.nodup_cons.mp hnd).2

/-- Claim C5: deduplication is idempotent: deduplicating an already
deduplicated record list changes nothing. -/
theorem dedup_idempotent : ∀ ps : List Pub, dedup (dedup ps) = dedup ps := by
  intro ps
  apply dedupAux_of_nodup
  · intro p _
    exact List.not_mem_nil _
  · exact dedupAux_keys_nodup ps []

/-- The fields of every record produced by the listing extractor: scalar
fields come from the item, and description, pdf_url and pdf_filename
are always empty at this stage. -/
theorem extract_fields (cy : Nat) (now burl : String) (it : Item) (p : Pub)
    (h : extract_publication_from_item cy now burl it = some p) :
    p.title = itemTitle it ∧ itemTitle it ≠ "" ∧ p.date = itemDate it ∧
    p.year = itemYear cy it ∧ p.category = itemCategory it ∧ p.url = itemUrl it ∧
    p.scraped_at = now ∧ p.source_url = burl ∧
    p.description = "" ∧ p.pdf_url = "" ∧ p.pdf_filename = "" := by
  unfold extract_publication_from_item at h
  split at h
  · next hT =>
    injection h with h2
    subst h2
    exact ⟨rfl, hT, rfl, rfl, rfl, rfl, rfl, rfl, rfl, rfl, rfl⟩
  · exact Option.noConfusion h

/-- Merging a detail result leaves the record title unchanged: the detail
dict carries no title key. -/
theorem enrich_title (details : String → Option Details) (p : Pub) :
    (enrichWithDetails details p).title = p.title := by
  unfold enrichWithDetails
  split
  · cases details p.url with
    | none => rfl
    | some d => rfl
  · rfl

/-- Claim C6: every record returned by the listing extractor has a
non-empty title; an item whose stripped data-title is empty and whose
h2 heading is absent or has empty text yields no record at all. -/
theorem extracted_titles_nonempty :
    (∀ (cy : Nat) (now burl : String) (details : String → Option Details)
        (items : List Item) (p : Pub),
        p ∈ extract_publications_from_page cy now burl details items → p.title ≠ "") ∧
    (∀ (cy : Nat) (now burl : String) (item : Item),
        pyStrip item.data_title = "" → (item.h2_text = none ∨ item.h2_text = some "") →
        extract_publication_from_item cy now burl item = none) := by
  constructor
  · intro cy now burl details items p hp
    unfold extract_publications_from_page at hp
    obtain ⟨it, hit, hsome⟩ := List.mem_filterMap.mp hp
    cases hE : extract_publication_from_item cy now burl it with
    | none => rw [hE] at hsome; exact Option.noConfusion hsome
    | some q =>
      rw [hE] at hsome
      have hpq : enrichWithDetails details q = p := by simpa using hsome
      have hq := extract_fields cy now burl it q hE
      rw [← hpq, enrich_title, hq.1]
      exact hq.2.1
  · intro cy now burl item h1 h2
    have hT : itemTitle item = "" := by
      unfold itemTitle
      rcases h2 with h2 | h2 <;> simp [h1, h2]
    unfold extract_publication_from_item
    rw [hT]
    simp

/-- Witness for extracted_titles_nonempty: the record the listing page
extractor yields from itemX has a non-empty title, and the item with
neither a data-title nor a heading yields none. -/
theorem extracted_titles_nonempty_witness :
    pubX.title ≠ "" ∧
    extract_publication_from_item 2025 "now" "base" itemEmptyTitle = none :=
  ⟨extracted_titles_nonempty.1 2025 "now" "base" noDetails [itemX] pubX (by decide),
   extracted_titles_nonempty.2 2025 "now" "base" itemEmptyTitle (by decide) (Or.inl rfl)⟩

/-- Claim C7: merging a detail result into a listing record never lets an
empty detail field replace a non-empty listing-derived value: every
field outside the detail dict is untouched by the merge, and each
overlapping field (description, pdf_url, pdf_filename) is empty in
every listing-extracted record, so a merged field reading empty never
replaced a non-empty value. -/
theorem merge_no_empty_override :
    ∀ (cy : Nat) (now burl : String) (item : Item) (p : Pub) (d : Details),
      extract_publication_from_item cy now burl item = some p →
      (mergeDetails p d).title = p.title ∧
      (mergeDetails p d).date = p.date ∧
      (mergeDetails p d).year = p.year ∧
      (mergeDetails p d).category = p.category ∧
      (mergeDetails p d).url = p.url ∧
      (mergeDetails p d).scraped_at = p.scraped_at ∧
      (mergeDetails p d).source_url = p.source_url ∧
      ((mergeDetails p d).description = "" → p.description = "") ∧
      ((mergeDetails p d).pdf_url = "" → p.pdf_url = "") ∧
      ((mergeDetails p d).pdf_filename = "" → p.pdf_filename = "") := by
  intro cy now burl item p d h
  have hq := extract_fields cy now burl item p h
  exact ⟨rfl, rfl, rfl, rfl, rfl, rfl, rfl,
    fun _ => hq.2.2.2.2.2.2.2.2.1,
    fun _ => hq.2.2.2.2.2.2.2.2.2.1,
    fun _ => hq.2.2.2.2.2.2.2.2.2.2⟩

/-- Witness for merge_no_empty_override: the record from itemX merged
with the detail result dX. -/
theorem merge_no_empty_override_witness :
    (mergeDetails pubX dX).title = pubX.title ∧
    (mergeDetails pubX dX).date = pubX.date ∧
    (mergeDetails pubX dX).year = pubX.year ∧
    (mergeDetails pubX dX).category = pubX.category ∧
    (mergeDetails pubX dX).url = pubX.url ∧
    (mergeDetails pubX dX).scraped_at = pubX.scraped_at ∧
    (mergeDetails pubX dX).source_url = pubX.source_url ∧
    ((mergeDetails pubX dX).description = "" → pubX.description = "") ∧
    ((mergeDetails pubX dX).pdf_url = "" → pubX.pdf_url = "") ∧
    ((mergeDetails pubX dX).pdf_filename = "" → pubX.pdf_filename = "") :=
  merge_no_empty_override 2025 "now" "base" itemX pubX dX (by decide)

/-- Claim C9, counterexample: a listing item matched by the current-year
scoped listing but carrying no time element yields a record whose year
is null, not the current calendar year: the current-year fallback runs
only inside the branch entered when a time element was found. -/
theorem year_no_time_counterexample :
    extract_publications_from_page 2025 "now" "base" noDetails [itemNoTime] = [pubNoTime] ∧
    pubNoTime.year ≠ some 2025 :=
  ⟨by decide, by decide⟩

/-- Claim C9 as amended: the year of every extracted record is itemYear;
when a time element exists and its text contains a four-digit run, the
year is that (first) run; when a time element exists but its text has
no four-digit run, the year falls back to the current year; the date
text 15 janvier 2025 yields year 2025 even with current year 2024; and
with no time element at all the year stays null. -/
theorem year_parsing_spec :
    (∀ (cy : Nat) (now burl : String) (item : Item) (p : Pub),
        extract_publication_from_item cy now burl item = some p →
        p.year = itemYear cy item) ∧
    (∀ (cy : Nat) (item : Item) (dt : String) (y : Nat),
        item.time_text = some dt → findFourDigit dt.data = some y →
        itemYear cy item = some y) ∧
    (∀ (cy : Nat) (item : Item) (dt : String),
        item.time_text = some dt → findFourDigit dt.data = none →
        itemYear cy item = some cy) ∧
    extract_publication_from_item 2024 "now" "base" itemJanvier = some pubJanvier ∧
    (∀ (cy : Nat) (item : Item), item.time_text = none → itemYear cy item = none) := by
  refine ⟨?_, ?_, ?_, by decide, ?_⟩
  · intro cy now burl item p h
    exact (extract_fields cy now burl item p h).2.2.2.1
  · intro cy item dt y h1 h2
    simp [itemYear, h1, h2]
  · intro cy item dt h1 h2
    simp [itemYear, h1, h2]
  · intro cy item h
    simp [itemYear, h]

/-- Witness for year_parsing_spec: the concrete items with a parseable
date, an unparseable date, and no time element. -/
theorem year_parsing_spec_witness :
    pubJanvier.year = itemYear 2024 itemJanvier ∧
    itemYear 2024 itemJanvier = some 2025 ∧
    itemYear 2024 itemNoYearText = some 2024 ∧
    itemYear 2025 itemNoTime = none :=
  ⟨year_parsing_spec.1 2024 "now" "base" itemJanvier pubJanvier (by decide),
   year_parsing_spec.2.1 2024 itemJanvier "15 janvier 2025" 2025 rfl (by decide),
   year_parsing_spec.2.2.1 2024 itemNoYearText "hier" rfl (by decide),
   year_parsing_spec.2.2.2.2 2025 itemNoTime rfl⟩

/-- Claim C3: with force_rescrape off and an existing snapshot file whose
total_items is positive, run performs no network request, returns
success, and writes nothing (the existing file is left unchanged). -/
theorem run_skip_existing (n current_year : Nat) (now base_url : String)
    (details : String → Option Details) (listing : Option (List Item)) (io_ok : Bool)
    (hn : 0 < n) :
    run false (ExistingData.snapshot n) current_year now base_url details listing io_ok =
      { success := true, network_requests := 0, written := none } := by
  have hc : (!false && decide (0 < check_existing_data (ExistingData.snapshot n))) = true := by
    simp [check_existing_data, hn]
  unfold run
  rw [if_pos hc]

/-- Witness for run_skip_existing: a snapshot holding five items is
skipped with success. -/
theorem run_skip_existing_witness :
    run false (ExistingData.snapshot 5) 2025 "now" "base" noDetails none false =
      { success := true, network_requests := 0, written := none } :=
  run_skip_existing 5 2025 "now" "base" noDetails none false (by decide)

/-- Claim C8: when the run does not skip (force_rescrape on, or no usable
existing data) and the scraping phase yields an empty publication
list, run returns failure, never an empty success. -/
theorem run_empty_failure (force_rescrape : Bool) (existing : ExistingData)
    (current_year : Nat) (now base_url : String) (details : String → Option Details)
    (listing : Option (List Item)) (io_ok : Bool)
    (hskip : force_rescrape = true ∨ check_existing_data existing = 0)
    (hempty : scrape_publications current_year now base_url details listing = []) :
    (run force_rescrape existing current_year now base_url details listing io_ok).success
      = false := by
  unfold run
  rcases hskip with h | h
  · subst h
    rw [if_neg (by simp)]
    simp [hempty]
  · rw [if_neg (by simp [h])]
    simp [hempty]

/-- Witness for run_empty_failure: a failed listing fetch yields an empty
scrape result and a failed run. -/
theorem run_empty_failure_witness :
    (run true ExistingData.absent 2025 "now" "base" noDetails none true).success = false :=
  run_empty_failure true ExistingData.absent 2025 "now" "base" noDetails none true
    (Or.inl rfl) rfl

/-- Claim C10: save_results writes no file and returns false on an empty
in-memory list; every snapshot a successful call writes has
total_items equal to the length of its data array, which is exactly
the in-memory record list. -/
theorem save_results_total_items (now : String) (force_rescrape : Bool)
    (results : List Pub) (io_ok : Bool) :
    (results = [] → save_results now force_rescrape results io_ok = (false, none)) ∧
    (∀ snap : Snapshot, (save_results now force_rescrape results io_ok).2 = some snap →
      snap.total_items = snap.data.length ∧ snap.data = results ∧
      (save_results now force_rescrape results io_ok).1 = true) := by
  constructor
  · intro h
    subst h
    rfl
  · intro snap hsnap
    unfold save_results at hsnap ⊢
    by_cases hres : results.isEmpty
    · rw [if_pos hres] at hsnap
      exact Option.noConfusion hsnap
    · rw [if_neg hres] at hsnap ⊢
      cases io_ok with
      | false => exact Option.noConfusion hsnap
      | true =>
        have hs : some (mkOutputData now force_rescrape results) = some snap := hsnap
        injection hs with hs2
        rw [← hs2]
        exact ⟨rfl, rfl, rfl⟩

/-- Witness for save_results_total_items: saving the one-record list
holding pubA writes the snapshot snapA with matching total_items. -/
theorem save_results_total_items_witness :
    snapA.total_items = snapA.data.length ∧ snapA.data = [pubA] ∧
    (save_results "t" false [pubA] true).1 = true :=
  (save_results_total_items "t" false [pubA] true).2 snapA (by decide)

end Scraper
